import Mathlib

/-!
Verification of `bots/weather_bot.py` (WeatherBot).

The Python module is shallowly embedded here:

* Python `str.lower()` / `str.strip()` are modelled by `pyLower` / `pyStrip`
  (ASCII case folding and ASCII whitespace, which covers every keyword the
  bot matches on).
* The outbound HTTP call in `WeatherBot._get_weather` is modelled by an
  explicit `ProviderOutcome` argument describing what the provider did
  (success / `httpx.HTTPStatusError` with a status code / any other
  exception); the configured credential `self.api_key` and the current
  clock (`datetime.now().timestamp()`) are likewise explicit arguments.
* Raised `BotError` / `BotErrorNoRetry` exceptions become the `Except`
  monad with a two-variant `BotFailure` payload; `str(e)` of such an
  exception is its message (modelled from the spec: `utils/base_bot.py`
  is not part of this snapshot; the spec fixes the user-visible text,
  e.g. `Error: Location \x27Atlantis\x27 not found.`).
* The generator `get_response` becomes a function returning the list of
  yielded chunk texts together with the number of `_get_weather`
  invocations made while producing them.
-/

/-- The set of characters removed by Python `str.strip()` (ASCII whitespace). -/
def isSpace (c : Char) : Bool :=
  c = ' ' || c = '\t' || c = '\n' || c = '\r' || c = '\x0b' || c = '\x0c'

/-- ASCII case folding of one character, as Python `str.lower()` performs on
the ASCII range (every keyword `WeatherBot` matches on is ASCII). -/
def lowerChar (c : Char) : Char :=
  match c with
  | 'A' => 'a' | 'B' => 'b' | 'C' => 'c' | 'D' => 'd' | 'E' => 'e' | 'F' => 'f'
  | 'G' => 'g' | 'H' => 'h' | 'I' => 'i' | 'J' => 'j' | 'K' => 'k' | 'L' => 'l'
  | 'M' => 'm' | 'N' => 'n' | 'O' => 'o' | 'P' => 'p' | 'Q' => 'q' | 'R' => 'r'
  | 'S' => 's' | 'T' => 't' | 'U' => 'u' | 'V' => 'v' | 'W' => 'w' | 'X' => 'x'
  | 'Y' => 'y' | 'Z' => 'z'
  | c => c

/-- Python `str.lower()`. -/
def pyLower (s : String) : String := ⟨s.data.map lowerChar⟩

/-- Python `str.strip()`: drop leading and trailing whitespace. -/
def pyStrip (s : String) : String :=
  ⟨((s.data.dropWhile isSpace).reverse.dropWhile isSpace).reverse⟩

/-- Python list indexing `l[i]`, which raises `IndexError` when out of range. -/
def listIndex (l : List α) (i : Nat) : Except String α :=
  match l.get? i with
  | some a => .ok a
  | none => .error "IndexError: list index out of range"

/-- Zero-pad a number to two digits (strftime `%d`, `%m`, `%H`, `%M`, `%S`). -/
def pad2 (n : Nat) : String :=
  if n < 10 then "0" ++ toString n else toString n

/-- Zero-pad a number to four digits (strftime `%Y`). -/
def pad4 (n : Nat) : String :=
  if n < 10 then "000" ++ toString n
  else if n < 100 then "00" ++ toString n
  else if n < 1000 then "0" ++ toString n
  else toString n

/-- Convert a day count relative to 1970-01-01 to a Gregorian calendar date
(year, month, day), following the standard civil-from-days algorithm.
`Int.ediv`/`Int.emod` are floor division/nonnegative remainder for the
positive modulus used here, matching Python integer division. -/
def civilFromDays (z0 : Int) : Int × Nat × Nat :=
  let z : Int := z0 + 719468
  let era : Int := z.ediv 146097
  let doe : Nat := (z.emod 146097).toNat
  let yoe : Nat := (doe - doe / 1460 + doe / 36524 - doe / 146096) / 365
  let doy : Nat := doe - (365 * yoe + yoe / 4 - yoe / 100)
  let mp : Nat := (5 * doy + 2) / 153
  let d : Nat := doy - (153 * mp + 2) / 5 + 1
  let m : Nat := if mp < 10 then mp + 3 else mp - 9
  let y : Int := (yoe : Int) + era * 400
  (if m ≤ 2 then y + 1 else y, m, d)

/-- `datetime.utcfromtimestamp(t).strftime("%Y-%m-%d %H:%M:%S")`: render a
Unix timestamp as a UTC civil date-time string. Python raises
`ValueError`/`OverflowError` when the UTC year falls outside
`datetime.MINYEAR..MAXYEAR` (1..9999), so the result is `Except`; the exact
exception text is modelled, its reachability and propagation are exact. -/
def utcfromtimestamp (t : Int) : Except String String :=
  let secs : Nat := (t.emod 86400).toNat
  let c := civilFromDays (t.ediv 86400)
  if c.1 < 1 ∨ 9999 < c.1 then .error "ValueError: year is out of range"
  else
    .ok (pad4 c.1.toNat ++ "-" ++ pad2 c.2.1 ++ "-" ++ pad2 c.2.2 ++ " " ++
      pad2 (secs / 3600) ++ ":" ++ pad2 (secs / 60 % 60) ++ ":" ++ pad2 (secs % 60))

/-- Decimal digits of the fractional part `rem/d`, with enough fuel for every
value this program produces (all of which are finite decimals). -/
def fracDigits (rem d : Nat) : Nat → String
  | 0 => ""
  | fuel + 1 =>
    let digit := rem * 10 / d
    let rem2 := rem * 10 % d
    toString digit ++ (if rem2 = 0 then "" else fracDigits rem2 d fuel)

/-- Rendering of a Python `float` in an f-string: integral values print with a
trailing `.0`, finite decimals print exactly. JSON numbers are modelled as
exact rationals; every number this program handles is a finite decimal. -/
def showFloat (q : Rat) : String :=
  let sign := if q.num < 0 then "-" else ""
  let n := q.num.natAbs
  let ip := n / q.den
  let rem := n % q.den
  if rem = 0 then sign ++ toString ip ++ ".0"
  else sign ++ toString ip ++ "." ++ fracDigits rem q.den 30

/-- `WeatherCondition` entry of the `weather` list; the formatter reads it as a
plain dict with `.get` defaults, so every field is optional. -/
structure WeatherCondition where
  id : Option Int := none
  main : Option String := none
  description : Option String := none
  icon : Option String := none

/-- `MainWeatherData` (`main` block), read with `.get` defaults. -/
structure MainWeatherData where
  temp : Option Rat := none
  feels_like : Option Rat := none
  temp_min : Option Rat := none
  temp_max : Option Rat := none
  pressure : Option Int := none
  humidity : Option Int := none

/-- `WindData` (`wind` block). -/
structure WindData where
  speed : Option Rat := none
  deg : Option Int := none

/-- `CloudData` (`clouds` block). -/
structure CloudData where
  all : Option Int := none

/-- `SysData` (`sys` block). -/
structure SysData where
  country : Option String := none
  sunrise : Option Int := none
  sunset : Option Int := none

/-- `WeatherData` (`total=False`): the complete, possibly partially populated
weather response. -/
structure WeatherData where
  name : Option String := none
  main : Option MainWeatherData := none
  weather : Option (List WeatherCondition) := none
  wind : Option WindData := none
  clouds : Option CloudData := none
  sys : Option SysData := none
  dt : Option Int := none
  timezone : Option Int := none
  id : Option Int := none
  cod : Option Int := none
  mock_data : Option Bool := none

/-- `BotError` (retryable) and `BotErrorNoRetry` (terminal, non-retryable),
carrying the exception message `str(e)`. -/
inductive BotFailure where
  | noRetry (msg : String)
  | retry (msg : String)

/-- What the external weather provider did for this request: a parsed JSON
body on HTTP success, an `httpx.HTTPStatusError` with its status code and
response text, or any other exception with its message. -/
inductive ProviderOutcome where
  | success (data : WeatherData)
  | httpStatusError (status : Nat) (body : String)
  | otherException (msg : String)

/-- `WeatherBot._get_mock_weather`: deterministic mock data stamped with the
current clock (`now = int(datetime.now().timestamp())`). -/
def _get_mock_weather (now : Int) (location : String) : WeatherData :=
  { name := some location
    main := some
      { temp := some (mkRat 225 10)  -- 22.5
        feels_like := some (mkRat 230 10)  -- 23.0
        temp_min := some (mkRat 200 10)  -- 20.0
        temp_max := some (mkRat 250 10)  -- 25.0
        pressure := some 1012
        humidity := some 65 }
    weather := some
      [{ id := some 800, main := some "Clear", description := some "clear sky",
         icon := some "01d" }]
    wind := some { speed := some (mkRat 36 10), deg := some 160 }  -- 3.6
    clouds := some { all := some 0 }
    sys := some { country := some "Mock", sunrise := some now,
                  sunset := some (now + 43200) }
    dt := some now
    timezone := some 0
    id := some 123456
    cod := some 200
    mock_data := some true }

/-- `WeatherBot._get_weather`: mock data when no API key is configured;
otherwise the provider outcome is translated — HTTP 404 to a terminal
`BotErrorNoRetry`, any other HTTP status error to a retryable `BotError`,
and any other exception to a retryable `BotError`. -/
def _get_weather (api_key : String) (now : Int) (outcome : ProviderOutcome)
    (location : String) : Except BotFailure WeatherData :=
  if api_key = "" then .ok (_get_mock_weather now location)
  else
    match outcome with
    | .success data => .ok data
    | .httpStatusError status _body =>
      if status = 404 then
        .error (.noRetry ("Location \x27" ++ location ++ "\x27 not found."))
      else
        .error (.retry ("Weather API error: HTTP " ++ toString status))
    | .otherException msg =>
      .error (.retry ("Failed to get weather data: " ++ msg))

/-- `WeatherBot._format_weather_data`: render weather data as markdown.
Missing fields take `.get` defaults; the operations that can raise are the
guarded list indexing `weather_list[0]` (line 205, first) and the
`datetime.utcfromtimestamp` call (line 220, for out-of-range timestamps), so
the result is `Except`. -/
def _format_weather_data (wd : WeatherData) : Except String String :=
  let location := wd.name.getD "Unknown"
  let country := (wd.sys.getD {}).country.getD ""
  let main_data := wd.main.getD {}
  let temp := main_data.temp.getD 0
  let feels_like := main_data.feels_like.getD 0
  let temp_min := main_data.temp_min.getD 0
  let temp_max := main_data.temp_max.getD 0
  let humidity := main_data.humidity.getD 0
  let weather_list := wd.weather.getD [{}]
  let wmRes : Except String (String × String) :=
    if weather_list.isEmpty then .ok ("Unknown", "Unknown")
    else
      match listIndex weather_list 0 with
      | .ok w0 => .ok (w0.main.getD "Unknown", w0.description.getD "Unknown")
      | .error e => .error e
  let wind := wd.wind.getD {}
  let wind_speed := match wind.speed with
    | none => "0"
    | some q => showFloat q
  let dt := wd.dt.getD 0
  let timezone_offset := wd.timezone.getD 0
  match wmRes with
  | .error e => .error e
  | .ok wm =>
   match utcfromtimestamp (dt + timezone_offset) with
   | .error e => .error e
   | .ok local_time =>
    let header :=
      if wd.mock_data.getD false then
        "## 🌤️ Weather for " ++ location ++ "\n\n" ++
          "⚠️ **Note:** Using mock data. Set OPENWEATHER_API_KEY for real weather data.\n\n"
      else
        "## 🌤️ Weather for " ++ location ++ ", " ++ country ++ "\n\n"
    .ok (header ++
      "**Current Conditions:** " ++ wm.1 ++ " (" ++ wm.2 ++ ")\n\n" ++
      "### Temperature\n" ++
      "- **Current:** " ++ showFloat temp ++ "°C\n" ++
      "- **Feels Like:** " ++ showFloat feels_like ++ "°C\n" ++
      "- **Min/Max:** " ++ showFloat temp_min ++ "°C / " ++ showFloat temp_max ++ "°C\n\n" ++
      "### Additional Info\n" ++
      "- **Humidity:** " ++ toString humidity ++ "%\n" ++
      "- **Wind Speed:** " ++ wind_speed ++ " m/s\n" ++
      "- **Local Time:** " ++ local_time ++ "\n")

/-- Modelled from the spec: `BaseBot._get_bot_metadata` lives in
`utils/base_bot.py`, which is not part of this snapshot; per the spec the
metadata command returns a JSON document describing bot
name/version/description, serialized with `json.dumps(metadata, indent=2)`. -/
def bot_metadata_json : String :=
  "\x7b\n  \"name\": \"WeatherBot\",\n  \"description\": \"A bot that provides weather information. Just tell me a city or location.\",\n  \"version\": \"1.0.0\"\n\x7d"

/-- The static help chunk (triple-quoted `help_text` in `get_response`). -/
def help_text : String :=
  "\n## 🌤️ Weather Bot\n\nI can provide weather information for any location around the world.\n\nJust type a city or location name, for example:\n- `New York`\n- `London, UK`\n- `Tokyo`\n- `Paris, France`\n\nI\x27ll give you the current weather conditions, temperature, and more.\n"

/-- The prompt emitted for an empty/whitespace-only message. -/
def empty_prompt_text : String :=
  "Please enter a location name. Type \x27help\x27 for instructions."

/-- The clarification emitted for an ambiguous-location keyword. -/
def clarification_text : String :=
  "Please specify a location by name (e.g., \x27New York\x27, \x27London, UK\x27)."

/-- The status chunk that opens every content request. -/
def statusChunk (message : String) : String :=
  "Getting weather for " ++ message ++ "...\n\n"

/-- `WeatherBot.get_response`: classify the user message and yield response
chunks. Returns the yielded chunk texts in order, paired with the number of
`_get_weather` calls made. `user_message` is the text extracted from the
query by `BaseBot._extract_message` (the hosting-runtime boundary). -/
def get_response (api_key : String) (now : Int) (outcome : ProviderOutcome)
    (user_message : String) : List String × Nat :=
  if pyStrip (pyLower user_message) = "bot info" then
    ([bot_metadata_json], 0)
  else
    let message := pyStrip user_message
    if pyLower message = "help" ∨ pyLower message = "?" ∨ pyLower message = "/help" then
      ([help_text], 0)
    else if message = "" then
      ([empty_prompt_text], 0)
    else if pyLower message = "current location" ∨ pyLower message = "my location" ∨
        pyLower message = "here" then
      ([clarification_text], 0)
    else
      match _get_weather api_key now outcome message with
      | .ok wd =>
        match _format_weather_data wd with
        | .ok formatted => ([statusChunk message, formatted], 1)
        | .error e => ([statusChunk message, "Weather error: " ++ e], 1)
      | .error (.noRetry m) => ([statusChunk message, "Error: " ++ m], 1)
      | .error (.retry m) => ([statusChunk message, "Weather error: " ++ m], 1)

/-- Everything in `mockPre loc` is the mock-weather response text up to (and
including) the `Local Time` label; only the timestamp follows it. -/
def mockPre (loc : String) : String :=
  "## 🌤️ Weather for " ++ loc ++ "\n\n" ++
    "⚠️ **Note:** Using mock data. Set OPENWEATHER_API_KEY for real weather data.\n\n" ++
    "**Current Conditions:** " ++ "Clear" ++ " (" ++ "clear sky" ++ ")\n\n" ++
    "### Temperature\n" ++
    "- **Current:** " ++ showFloat (mkRat 225 10) ++ "°C\n" ++
    "- **Feels Like:** " ++ showFloat (mkRat 230 10) ++ "°C\n" ++
    "- **Min/Max:** " ++ showFloat (mkRat 200 10) ++ "°C / " ++ showFloat (mkRat 250 10) ++ "°C\n\n" ++
    "### Additional Info\n" ++
    "- **Humidity:** " ++ toString (65 : Int) ++ "%\n" ++
    "- **Wind Speed:** " ++ showFloat (mkRat 36 10) ++ " m/s\n" ++
    "- **Local Time:** "

example : utcfromtimestamp 0 = .ok "1970-01-01 00:00:00" := rfl

example : utcfromtimestamp 253402300799 = .ok "9999-12-31 23:59:59" := rfl

example : utcfromtimestamp 253402300800 =
  .error "ValueError: year is out of range" := rfl

example : pyStrip (pyLower "  Bot Info ") = "bot info" := by decide

example : showFloat (mkRat 225 10) = "22.5" := by decide

/-- Case folding does not change whether a character is Python whitespace. -/
theorem isSpace_lowerChar (c : Char) : isSpace (lowerChar c) = isSpace c := by
  unfold lowerChar
  split <;> rfl

/-- Function form of `isSpace_lowerChar`. -/
theorem isSpace_comp : isSpace ∘ lowerChar = isSpace := funext isSpace_lowerChar

/-- List-level form: stripping commutes with case folding. -/
theorem stripL_lowerL (l : List Char) :
    (((l.map lowerChar).dropWhile isSpace).reverse.dropWhile isSpace).reverse =
      ((((l.dropWhile isSpace).reverse.dropWhile isSpace).reverse).map lowerChar) := by
  rw [List.dropWhile_map, isSpace_comp, ← List.map_reverse, List.dropWhile_map,
    isSpace_comp, ← List.map_reverse]

/-- Python `s.lower().strip()` equals `s.strip().lower()`. -/
theorem pyStrip_pyLower (s : String) : pyStrip (pyLower s) = pyLower (pyStrip s) :=
  String.ext (stripL_lowerL s.data)

/-- String append is associative. -/
theorem strAppend_assoc (a b c : String) : (a ++ b) ++ c = a ++ (b ++ c) :=
  String.ext (by simp)

/-- The first character of a string, if any. -/
def headChar (s : String) : Option Char := s.data.head?

theorem headChar_append_of {s : String} (t : String) {c : Char}
    (h : headChar s = some c) : headChar (s ++ t) = some c := by
  unfold headChar at h ⊢
  rw [String.data_append]
  cases hs : s.data with
  | nil => rw [hs] at h; simp at h
  | cons x xs =>
    rw [hs] at h
    simp at h
    simp [h]

theorem ne_of_headChar {a b : String} {c d : Char} (ha : headChar a = some c)
    (hb : headChar b = some d) (hcd : c ≠ d) : a ≠ b := by
  intro e
  rw [e, hb] at ha
  injection ha with h
  exact hcd h.symm

/-- `t` occurs as a substring of `s`. -/
def strContains (s t : String) : Prop := ∃ a b : String, s = a ++ t ++ b

theorem strContains_of_eq {s t : String} (a b : String) (h : s = a ++ t ++ b) :
    strContains s t := ⟨a, b, h⟩

/-- Run equation: the metadata branch. -/
theorem run_info {k : String} {now : Int} {oc : ProviderOutcome} {msg : String}
    (h : pyStrip (pyLower msg) = "bot info") :
    get_response k now oc msg = ([bot_metadata_json], 0) := by
  simp only [get_response]
  rw [if_pos h]

/-- Run equation: the help branch. -/
theorem run_help {k : String} {now : Int} {oc : ProviderOutcome} {msg : String}
    (h1 : pyStrip (pyLower msg) ≠ "bot info")
    (h2 : pyLower (pyStrip msg) = "help" ∨ pyLower (pyStrip msg) = "?" ∨
      pyLower (pyStrip msg) = "/help") :
    get_response k now oc msg = ([help_text], 0) := by
  simp only [get_response]
  rw [if_neg h1, if_pos h2]

/-- Run equation: the empty-message branch. -/
theorem run_empty {k : String} {now : Int} {oc : ProviderOutcome} {msg : String}
    (h1 : pyStrip (pyLower msg) ≠ "bot info")
    (h2 : ¬(pyLower (pyStrip msg) = "help" ∨ pyLower (pyStrip msg) = "?" ∨
      pyLower (pyStrip msg) = "/help"))
    (h3 : pyStrip msg = "") :
    get_response k now oc msg = ([empty_prompt_text], 0) := by
  simp only [get_response]
  rw [if_neg h1, if_neg h2, if_pos h3]

/-- Run equation: the ambiguous-location branch. -/
theorem run_clarify {k : String} {now : Int} {oc : ProviderOutcome} {msg : String}
    (h1 : pyStrip (pyLower msg) ≠ "bot info")
    (h2 : ¬(pyLower (pyStrip msg) = "help" ∨ pyLower (pyStrip msg) = "?" ∨
      pyLower (pyStrip msg) = "/help"))
    (h3 : pyStrip msg ≠ "")
    (h4 : pyLower (pyStrip msg) = "current location" ∨
      pyLower (pyStrip msg) = "my location" ∨ pyLower (pyStrip msg) = "here") :
    get_response k now oc msg = ([clarification_text], 0) := by
  simp only [get_response]
  rw [if_neg h1, if_neg h2, if_neg h3, if_pos h4]

/-- Run equation: the content-request branch. -/
theorem run_content {k : String} {now : Int} {oc : ProviderOutcome} {msg : String}
    (h1 : pyStrip (pyLower msg) ≠ "bot info")
    (h2 : ¬(pyLower (pyStrip msg) = "help" ∨ pyLower (pyStrip msg) = "?" ∨
      pyLower (pyStrip msg) = "/help"))
    (h3 : pyStrip msg ≠ "")
    (h4 : ¬(pyLower (pyStrip msg) = "current location" ∨
      pyLower (pyStrip msg) = "my location" ∨ pyLower (pyStrip msg) = "here")) :
    get_response k now oc msg =
      (match _get_weather k now oc (pyStrip msg) with
       | .ok wd =>
         match _format_weather_data wd with
         | .ok formatted => ([statusChunk (pyStrip msg), formatted], 1)
         | .error e => ([statusChunk (pyStrip msg), "Weather error: " ++ e], 1)
       | .error (.noRetry m) => ([statusChunk (pyStrip msg), "Error: " ++ m], 1)
       | .error (.retry m) => ([statusChunk (pyStrip msg), "Weather error: " ++ m], 1)) := by
  simp only [get_response]
  rw [if_neg h1, if_neg h2, if_neg h3, if_neg h4]

/-- With no API key configured, `_get_weather` is the mock client. -/
theorem get_weather_no_key (now : Int) (oc : ProviderOutcome) (loc : String) :
    _get_weather "" now oc loc = .ok (_get_mock_weather now loc) := rfl

/-- The header text following the location name (mock disclaimer or country). -/
def headerTail (wd : WeatherData) : String :=
  if wd.mock_data.getD false then
    "\n\n" ++ "⚠️ **Note:** Using mock data. Set OPENWEATHER_API_KEY for real weather data.\n\n"
  else ", " ++ (wd.sys.getD {}).country.getD "" ++ "\n\n"

/-- The condition name the formatter renders. -/
def weatherMainOf (wd : WeatherData) : String :=
  match (wd.weather.getD [{}]).head? with
  | some w0 => w0.main.getD "Unknown"
  | none => "Unknown"

/-- The condition description the formatter renders. -/
def weatherDescOf (wd : WeatherData) : String :=
  match (wd.weather.getD [{}]).head? with
  | some w0 => w0.description.getD "Unknown"
  | none => "Unknown"

/-- The wind-speed text the formatter renders. -/
def windSpeedOf (wd : WeatherData) : String :=
  match (wd.wind.getD {}).speed with
  | none => "0"
  | some q => showFloat q

/-- The conditions line plus the temperature heading. -/
def fmtCond (wd : WeatherData) : String :=
  "**Current Conditions:** " ++ weatherMainOf wd ++ " (" ++ weatherDescOf wd ++
    ")\n\n" ++ "### Temperature\n"

/-- The current-temperature line. -/
def fmtCur (wd : WeatherData) : String :=
  "- **Current:** " ++ showFloat ((wd.main.getD {}).temp.getD 0) ++ "°C\n"

/-- The feels-like line. -/
def fmtFeels (wd : WeatherData) : String :=
  "- **Feels Like:** " ++ showFloat ((wd.main.getD {}).feels_like.getD 0) ++ "°C\n"

/-- The min/max line. -/
def fmtMinMax (wd : WeatherData) : String :=
  "- **Min/Max:** " ++ showFloat ((wd.main.getD {}).temp_min.getD 0) ++ "°C / " ++
    showFloat ((wd.main.getD {}).temp_max.getD 0) ++ "°C\n\n"

/-- Everything after the temperature block, given the rendered local time. -/
def fmtTailTime (wd : WeatherData) (lt : String) : String :=
  "### Additional Info\n" ++
    "- **Humidity:** " ++ toString ((wd.main.getD {}).humidity.getD 0) ++ "%\n" ++
    "- **Wind Speed:** " ++ windSpeedOf wd ++ " m/s\n" ++
    "- **Local Time:** " ++ lt ++ "\n"

set_option maxRecDepth 16384 in
/-- A formatter run fails exactly when the local-time conversion fails (the
list indexing is guarded and never does); on success it decomposes into
header, conditions, temperature block, and tail. -/
theorem format_eq_match (wd : WeatherData) :
    _format_weather_data wd =
      (match utcfromtimestamp (wd.dt.getD 0 + wd.timezone.getD 0) with
       | .error e => .error e
       | .ok lt =>
         .ok ("## 🌤️ Weather for " ++ wd.name.getD "Unknown" ++ headerTail wd ++
           fmtCond wd ++ fmtCur wd ++ fmtFeels wd ++ fmtMinMax wd ++
           fmtTailTime wd lt)) := by
  simp only [_format_weather_data, headerTail, fmtCond, fmtCur, fmtFeels,
    fmtMinMax, fmtTailTime, weatherMainOf, weatherDescOf, windSpeedOf, listIndex]
  rcases hwl : wd.weather.getD [{}] with _ | ⟨w0, rest⟩ <;>
    rcases hu : utcfromtimestamp (wd.dt.getD 0 + wd.timezone.getD 0) with e | lt <;>
    rcases hmd : wd.mock_data.getD false <;>
    simp [String.ext_iff, List.append_assoc]

/-- When the timestamp is renderable, the formatter succeeds with the
decomposed text. -/
theorem format_eq_decomp (wd : WeatherData) (lt : String)
    (hlt : utcfromtimestamp (wd.dt.getD 0 + wd.timezone.getD 0) = .ok lt) :
    _format_weather_data wd =
      .ok ("## 🌤️ Weather for " ++ wd.name.getD "Unknown" ++ headerTail wd ++
        fmtCond wd ++ fmtCur wd ++ fmtFeels wd ++ fmtMinMax wd ++
        fmtTailTime wd lt) := by
  rw [format_eq_match, hlt]

/-- When the timestamp is out of `datetime`'s range, the formatter raises. -/
theorem format_error_of_time (wd : WeatherData) (e : String)
    (hu : utcfromtimestamp (wd.dt.getD 0 + wd.timezone.getD 0) = .error e) :
    _format_weather_data wd = .error e := by
  rw [format_eq_match, hu]

/-- The formatter succeeds on every input whose timestamp is renderable. -/
theorem format_total_in_range (wd : WeatherData) (lt : String)
    (hlt : utcfromtimestamp (wd.dt.getD 0 + wd.timezone.getD 0) = .ok lt) :
    ∃ s, _format_weather_data wd = .ok s :=
  ⟨_, format_eq_decomp wd lt hlt⟩

/-- Every successful formatter output begins with the `##` header marker. -/
theorem format_ok_headChar {wd : WeatherData} {s : String}
    (h : _format_weather_data wd = .ok s) : headChar s = some '#' := by
  rw [format_eq_match] at h
  rcases hu : utcfromtimestamp (wd.dt.getD 0 + wd.timezone.getD 0) with e | lt <;>
    rw [hu] at h <;> simp at h
  subst h
  (repeat apply headChar_append_of) <;> rfl

set_option maxRecDepth 16384 in
/-- Formatting the mock data yields the fixed text with the clock-derived
local time at the end. -/
theorem format_mock_eq (now : Int) (loc lt : String)
    (hlt : utcfromtimestamp now = .ok lt) :
    _format_weather_data (_get_mock_weather now loc) =
      .ok (mockPre loc ++ lt ++ "\n") := by
  have hlt0 : utcfromtimestamp ((_get_mock_weather now loc).dt.getD 0 +
      (_get_mock_weather now loc).timezone.getD 0) = .ok lt := by
    show utcfromtimestamp (now + 0) = .ok lt
    rw [Int.add_zero]
    exact hlt
  rw [format_eq_decomp (_get_mock_weather now loc) lt hlt0]
  refine congrArg Except.ok (String.ext ?_)
  simp [mockPre, headerTail, fmtCond, fmtCur, fmtFeels, fmtMinMax, fmtTailTime,
    weatherMainOf, weatherDescOf, windSpeedOf, _get_mock_weather,
    List.append_assoc]

/-- C1: `get_response` classifies every inbound message by first match in the
fixed order: (1) an exact-match metadata request (`bot info` after lowering
and stripping) emits one JSON metadata chunk and terminates; (2) an
exact-match help keyword (`help`, `?`, `/help`) emits one static help chunk
and terminates; (3) an empty/whitespace-only message emits one
prompt-for-input chunk and terminates; (4) an ambiguous-location keyword
(`current location`, `my location`, `here`) emits one clarification chunk and
terminates; (5) otherwise the message is treated as a content request. -/
theorem get_response_classification (k : String) (now : Int)
    (oc : ProviderOutcome) (msg : String) :
    (pyStrip (pyLower msg) = "bot info" →
      (get_response k now oc msg).1 = [bot_metadata_json]) ∧
    (pyStrip (pyLower msg) ≠ "bot info" →
      (pyLower (pyStrip msg) = "help" ∨ pyLower (pyStrip msg) = "?" ∨
        pyLower (pyStrip msg) = "/help") →
      (get_response k now oc msg).1 = [help_text]) ∧
    (pyStrip (pyLower msg) ≠ "bot info" →
      ¬(pyLower (pyStrip msg) = "help" ∨ pyLower (pyStrip msg) = "?" ∨
        pyLower (pyStrip msg) = "/help") →
      pyStrip msg = "" →
      (get_response k now oc msg).1 = [empty_prompt_text]) ∧
    (pyStrip (pyLower msg) ≠ "bot info" →
      ¬(pyLower (pyStrip msg) = "help" ∨ pyLower (pyStrip msg) = "?" ∨
        pyLower (pyStrip msg) = "/help") →
      pyStrip msg ≠ "" →
      (pyLower (pyStrip msg) = "current location" ∨
        pyLower (pyStrip msg) = "my location" ∨ pyLower (pyStrip msg) = "here") →
      (get_response k now oc msg).1 = [clarification_text]) ∧
    (pyStrip (pyLower msg) ≠ "bot info" →
      ¬(pyLower (pyStrip msg) = "help" ∨ pyLower (pyStrip msg) = "?" ∨
        pyLower (pyStrip msg) = "/help") →
      pyStrip msg ≠ "" →
      ¬(pyLower (pyStrip msg) = "current location" ∨
        pyLower (pyStrip msg) = "my location" ∨ pyLower (pyStrip msg) = "here") →
      ∃ c, (get_response k now oc msg).1 = [statusChunk (pyStrip msg), c]) := by
  refine ⟨fun h => by rw [run_info h], fun h1 h2 => by rw [run_help h1 h2],
    fun h1 h2 h3 => by rw [run_empty h1 h2 h3],
    fun h1 h2 h3 h4 => by rw [run_clarify h1 h2 h3 h4],
    fun h1 h2 h3 h4 => ?_⟩
  rw [run_content h1 h2 h3 h4]
  rcases hgw : _get_weather k now oc (pyStrip msg) with f | wd
  · rcases f with m | m
    · exact ⟨"Error: " ++ m, rfl⟩
    · exact ⟨"Weather error: " ++ m, rfl⟩
  · rcases hf : _format_weather_data wd with e | s
    · exact ⟨"Weather error: " ++ e, by simp [hf]⟩
    · exact ⟨s, by simp [hf]⟩

/-- Witness for C1 at concrete messages, one per branch. -/
theorem get_response_classification_witness :
    (get_response "key" 0 (.success {}) "bot info").1 = [bot_metadata_json] ∧
    (get_response "key" 0 (.success {}) "HELP").1 = [help_text] ∧
    (get_response "key" 0 (.success {}) "   ").1 = [empty_prompt_text] ∧
    (get_response "key" 0 (.success {}) "here").1 = [clarification_text] ∧
    ∃ c, (get_response "key" 0 (.success {}) "Paris").1 =
      [statusChunk (pyStrip "Paris"), c] :=
  ⟨(get_response_classification "key" 0 (.success {}) "bot info").1 (by decide),
   (get_response_classification "key" 0 (.success {}) "HELP").2.1 (by decide)
     (by decide),
   (get_response_classification "key" 0 (.success {}) "   ").2.2.1 (by decide)
     (by decide) (by decide),
   (get_response_classification "key" 0 (.success {}) "here").2.2.2.1
     (by decide) (by decide) (by decide) (by decide),
   (get_response_classification "key" 0 (.success {}) "Paris").2.2.2.2
     (by decide) (by decide) (by decide) (by decide)⟩

/-- C2: queries classified as help, info, empty, or clarification never invoke
the provider client (`_get_weather` is not called); a query reaching the
content-request branch makes exactly one provider call. -/
theorem provider_call_discipline (k : String) (now : Int) (oc : ProviderOutcome)
    (msg : String) :
    ((pyStrip (pyLower msg) = "bot info" ∨
      pyLower (pyStrip msg) = "help" ∨ pyLower (pyStrip msg) = "?" ∨
      pyLower (pyStrip msg) = "/help" ∨
      pyStrip msg = "" ∨
      pyLower (pyStrip msg) = "current location" ∨
      pyLower (pyStrip msg) = "my location" ∨ pyLower (pyStrip msg) = "here") →
      (get_response k now oc msg).2 = 0) ∧
    (pyStrip (pyLower msg) ≠ "bot info" →
      ¬(pyLower (pyStrip msg) = "help" ∨ pyLower (pyStrip msg) = "?" ∨
        pyLower (pyStrip msg) = "/help") →
      pyStrip msg ≠ "" →
      ¬(pyLower (pyStrip msg) = "current location" ∨
        pyLower (pyStrip msg) = "my location" ∨ pyLower (pyStrip msg) = "here") →
      (get_response k now oc msg).2 = 1) := by
  constructor
  · intro hd
    by_cases h1 : pyStrip (pyLower msg) = "bot info"
    · rw [run_info h1]
    · by_cases h2 : pyLower (pyStrip msg) = "help" ∨ pyLower (pyStrip msg) = "?" ∨
        pyLower (pyStrip msg) = "/help"
      · rw [run_help h1 h2]
      · by_cases h3 : pyStrip msg = ""
        · rw [run_empty h1 h2 h3]
        · have h4 : pyLower (pyStrip msg) = "current location" ∨
            pyLower (pyStrip msg) = "my location" ∨
            pyLower (pyStrip msg) = "here" := by tauto
          rw [run_clarify h1 h2 h3 h4]
  · intro h1 h2 h3 h4
    rw [run_content h1 h2 h3 h4]
    rcases hgw : _get_weather k now oc (pyStrip msg) with f | wd
    · rcases f with m | m <;> rfl
    · rcases hf : _format_weather_data wd with e | s <;> simp [hf]

/-- Witness for C2: `help` makes no provider call, `Paris` makes one. -/
theorem provider_call_discipline_witness :
    (get_response "key" 0 (.success {}) "help").2 = 0 ∧
    (get_response "key" 0 (.success {}) "Paris").2 = 1 :=
  ⟨(provider_call_discipline "key" 0 (.success {}) "help").1 (by decide),
   (provider_call_discipline "key" 0 (.success {}) "Paris").2 (by decide)
     (by decide) (by decide) (by decide)⟩

/-- C4: with a configured API key, `_get_weather` fails with the terminal
`BotErrorNoRetry (Location not found)` exactly on HTTP 404, with a retryable
`BotError` on every other HTTP status error and on any unexpected exception,
and returns the provider result on success. -/
theorem get_weather_error_taxonomy (k : String) (now : Int) (loc : String)
    (hk : k ≠ "") :
    (∀ body, _get_weather k now (.httpStatusError 404 body) loc =
      .error (.noRetry ("Location \x27" ++ loc ++ "\x27 not found."))) ∧
    (∀ status body, status ≠ 404 →
      _get_weather k now (.httpStatusError status body) loc =
        .error (.retry ("Weather API error: HTTP " ++ toString status))) ∧
    (∀ msg, _get_weather k now (.otherException msg) loc =
      .error (.retry ("Failed to get weather data: " ++ msg))) ∧
    (∀ data, _get_weather k now (.success data) loc = .ok data) := by
  refine ⟨fun body => ?_, fun status body hs => ?_, fun msg => ?_,
    fun data => ?_⟩
  · simp [_get_weather, hk]
  · simp [_get_weather, hk, hs]
  · simp [_get_weather, hk]
  · simp [_get_weather, hk]

/-- Witness for C4 at a concrete key, location, and statuses. -/
theorem get_weather_error_taxonomy_witness :
    _get_weather "key" 0 (.httpStatusError 404 "") "Paris" =
      .error (.noRetry ("Location \x27" ++ "Paris" ++ "\x27 not found.")) ∧
    _get_weather "key" 0 (.httpStatusError 500 "") "Paris" =
      .error (.retry ("Weather API error: HTTP " ++ toString 500)) ∧
    _get_weather "key" 0 (.otherException "boom") "Paris" =
      .error (.retry ("Failed to get weather data: " ++ "boom")) :=
  ⟨(get_weather_error_taxonomy "key" 0 "Paris" (by decide)).1 "",
   (get_weather_error_taxonomy "key" 0 "Paris" (by decide)).2.1 500 ""
     (by decide),
   (get_weather_error_taxonomy "key" 0 "Paris" (by decide)).2.2.1 "boom"⟩

set_option maxRecDepth 8192 in
/-- Counterexample for C7: an input in the claim's scope (every field missing
except `dt`) on which the formatter raises — `datetime.utcfromtimestamp`
overflows for the out-of-range timestamp `10^15`, so no formatted string is
returned. -/
theorem format_total_counterexample :
    ¬ ∃ s, _format_weather_data { dt := some 1000000000000000 } = .ok s := by
  rintro ⟨s, hs⟩
  have he : _format_weather_data { dt := some 1000000000000000 } =
      .error "ValueError: year is out of range" := rfl
  rw [he] at hs
  exact Except.noConfusion hs

set_option maxRecDepth 8192 in
/-- C7 (amended): `_format_weather_data` never raises on partially-populated
weather data provided the timestamp `dt + timezone` renders within
`datetime`'s supported years 1..9999 (out-of-range timestamps raise,
regardless of which fields are missing); missing fields default to zero and
`Unknown`, as the all-fields-missing input shows. -/
theorem format_total_on_partial :
    (∀ (wd : WeatherData) (lt : String),
      utcfromtimestamp (wd.dt.getD 0 + wd.timezone.getD 0) = .ok lt →
      ∃ s, _format_weather_data wd = .ok s) ∧
    _format_weather_data {} =
      .ok ("## 🌤️ Weather for Unknown, \n\n**Current Conditions:** Unknown (Unknown)\n\n### Temperature\n- **Current:** 0.0°C\n- **Feels Like:** 0.0°C\n- **Min/Max:** 0.0°C / 0.0°C\n\n### Additional Info\n- **Humidity:** 0%\n- **Wind Speed:** 0 m/s\n- **Local Time:** 1970-01-01 00:00:00\n") :=
  ⟨format_total_in_range, rfl⟩

/-- Witness for C7 (amended) at the all-fields-missing input, whose defaulted
timestamp 0 renders. -/
theorem format_total_on_partial_witness :
    ∃ s, _format_weather_data {} = .ok s :=
  format_total_on_partial.1 {} "1970-01-01 00:00:00" rfl

/-- `str()` of the caught failure as `get_response` renders it: terminal
failures as `Error: ...`, retryable ones as `Weather error: ...`. -/
def errChunk : BotFailure → String
  | .noRetry m => "Error: " ++ m
  | .retry m => "Weather error: " ++ m

/-- C3: for every content-request query whose provider call fails — with any
failure, terminal or retryable — `get_response` emits exactly one
human-readable error chunk after the status chunk and the sequence
terminates; for an HTTP 404 (not-found) failure the output is exactly the
status chunk followed by `Error: Location '<loc>' not found.`, which contains
the location name and the words `not found`. -/
theorem provider_failure_error_chunks (k : String) (now : Int) (msg : String)
    (hk : k ≠ "")
    (h1 : pyStrip (pyLower msg) ≠ "bot info")
    (h2 : ¬(pyLower (pyStrip msg) = "help" ∨ pyLower (pyStrip msg) = "?" ∨
      pyLower (pyStrip msg) = "/help"))
    (h3 : pyStrip msg ≠ "")
    (h4 : ¬(pyLower (pyStrip msg) = "current location" ∨
      pyLower (pyStrip msg) = "my location" ∨ pyLower (pyStrip msg) = "here")) :
    (∀ (oc : ProviderOutcome) (f : BotFailure),
      _get_weather k now oc (pyStrip msg) = .error f →
      (get_response k now oc msg).1 =
        [statusChunk (pyStrip msg), errChunk f]) ∧
    (∀ body, (get_response k now (.httpStatusError 404 body) msg).1 =
      [statusChunk (pyStrip msg),
       "Error: " ++ ("Location \x27" ++ pyStrip msg ++ "\x27 not found.")]) ∧
    strContains ("Error: " ++ ("Location \x27" ++ pyStrip msg ++ "\x27 not found."))
      (pyStrip msg) ∧
    strContains ("Error: " ++ ("Location \x27" ++ pyStrip msg ++ "\x27 not found."))
      "not found" := by
  refine ⟨?_, ?_, ?_, ?_⟩
  · intro oc f hgw
    rw [run_content h1 h2 h3 h4]
    rcases f with m | m <;> simp [hgw, errChunk]
  · intro body
    have hw : _get_weather k now (.httpStatusError 404 body) (pyStrip msg) =
        .error (.noRetry ("Location \x27" ++ pyStrip msg ++ "\x27 not found.")) := by
      simp [_get_weather, hk]
    rw [run_content h1 h2 h3 h4]
    simp [hw]
  · refine strContains_of_eq ("Error: " ++ "Location \x27") "\x27 not found." ?_
    apply String.ext
    simp [List.append_assoc]
  · refine strContains_of_eq ("Error: " ++ ("Location \x27" ++ pyStrip msg ++ "\x27 "))
      "." ?_
    apply String.ext
    simp [List.append_assoc]

/-- Witness for C3: the `Atlantis` content request under a retryable HTTP 500
failure, a retryable unexpected exception, and the spec's terminal 404
example, end to end. -/
theorem provider_failure_error_chunks_witness :
    (get_response "key" 0 (.httpStatusError 500 "") "Atlantis").1 =
      [statusChunk (pyStrip "Atlantis"),
       errChunk (.retry ("Weather API error: HTTP " ++ toString 500))] ∧
    (get_response "key" 0 (.otherException "boom") "Atlantis").1 =
      [statusChunk (pyStrip "Atlantis"),
       errChunk (.retry ("Failed to get weather data: " ++ "boom"))] ∧
    (get_response "key" 0 (.httpStatusError 404 "") "Atlantis").1 =
      ["Getting weather for Atlantis...\n\n",
       "Error: Location \x27Atlantis\x27 not found."] :=
  ⟨(provider_failure_error_chunks "key" 0 "Atlantis" (by decide) (by decide)
      (by decide) (by decide) (by decide)).1 (.httpStatusError 500 "")
      (.retry ("Weather API error: HTTP " ++ toString 500)) rfl,
   (provider_failure_error_chunks "key" 0 "Atlantis" (by decide) (by decide)
      (by decide) (by decide) (by decide)).1 (.otherException "boom")
      (.retry ("Failed to get weather data: " ++ "boom")) rfl,
   (((provider_failure_error_chunks "key" 0 "Atlantis" (by decide) (by decide)
      (by decide) (by decide) (by decide)).2.1 "") : _)⟩

/-- The status chunk always begins with `G`. -/
theorem statusChunk_headChar (m : String) : headChar (statusChunk m) = some 'G' := by
  unfold statusChunk
  exact headChar_append_of _ (headChar_append_of _ rfl)

/-- Counting occurrences in a two-element list whose elements differ. -/
theorem count_pair_of_ne {a c : String} (h : c ≠ a) : ([a, c].count a) = 1 := by
  simp [List.count_cons, h]

/-- The chunk a content request emits after its status chunk. -/
def secondChunk (k : String) (now : Int) (oc : ProviderOutcome)
    (loc : String) : String :=
  match _get_weather k now oc loc with
  | .ok wd =>
    match _format_weather_data wd with
    | .ok formatted => formatted
    | .error e => "Weather error: " ++ e
  | .error (.noRetry m) => "Error: " ++ m
  | .error (.retry m) => "Weather error: " ++ m

/-- Run equation: a content request emits exactly the status chunk and one
further chunk, with one provider call. -/
theorem run_content_pair {k : String} {now : Int} {oc : ProviderOutcome}
    {msg : String}
    (h1 : pyStrip (pyLower msg) ≠ "bot info")
    (h2 : ¬(pyLower (pyStrip msg) = "help" ∨ pyLower (pyStrip msg) = "?" ∨
      pyLower (pyStrip msg) = "/help"))
    (h3 : pyStrip msg ≠ "")
    (h4 : ¬(pyLower (pyStrip msg) = "current location" ∨
      pyLower (pyStrip msg) = "my location" ∨ pyLower (pyStrip msg) = "here")) :
    get_response k now oc msg =
      ([statusChunk (pyStrip msg), secondChunk k now oc (pyStrip msg)], 1) := by
  rw [run_content h1 h2 h3 h4]
  unfold secondChunk
  rcases hgw : _get_weather k now oc (pyStrip msg) with f | wd
  · rcases f with m | m <;> rfl
  · rcases hf : _format_weather_data wd with e | s <;> simp [hf]

/-- The second chunk of a content request is never the status chunk: it starts
with `#`, `E`, or `W`, never `G`. -/
theorem secondChunk_ne_statusChunk (k : String) (now : Int) (oc : ProviderOutcome)
    (loc m : String) : secondChunk k now oc loc ≠ statusChunk m := by
  unfold secondChunk
  rcases hgw : _get_weather k now oc loc with f | wd
  · rcases f with x | x
    · exact ne_of_headChar (headChar_append_of _ rfl) (statusChunk_headChar m)
        (by decide)
    · exact ne_of_headChar (headChar_append_of _ rfl) (statusChunk_headChar m)
        (by decide)
  · show (match _format_weather_data wd with
      | Except.ok formatted => formatted
      | Except.error e => "Weather error: " ++ e) ≠ statusChunk m
    rcases hf : _format_weather_data wd with e | s
    · exact ne_of_headChar (headChar_append_of _ rfl) (statusChunk_headChar m)
        (by decide)
    · exact ne_of_headChar (format_ok_headChar hf) (statusChunk_headChar m)
        (by decide)

/-- C5: every query reaching the content-request branch emits exactly one
status chunk (`Getting weather for <message>...`), and it precedes any result
or error chunk in the output sequence. -/
theorem status_chunk_unique_first (k : String) (now : Int) (oc : ProviderOutcome)
    (msg : String)
    (h1 : pyStrip (pyLower msg) ≠ "bot info")
    (h2 : ¬(pyLower (pyStrip msg) = "help" ∨ pyLower (pyStrip msg) = "?" ∨
      pyLower (pyStrip msg) = "/help"))
    (h3 : pyStrip msg ≠ "")
    (h4 : ¬(pyLower (pyStrip msg) = "current location" ∨
      pyLower (pyStrip msg) = "my location" ∨ pyLower (pyStrip msg) = "here")) :
    (get_response k now oc msg).1.head? = some (statusChunk (pyStrip msg)) ∧
    (get_response k now oc msg).1.count (statusChunk (pyStrip msg)) = 1 := by
  rw [run_content_pair h1 h2 h3 h4]
  exact ⟨rfl, count_pair_of_ne (secondChunk_ne_statusChunk k now oc
    (pyStrip msg) (pyStrip msg))⟩

/-- Witness for C5 at the concrete content request `Paris`. -/
theorem status_chunk_unique_first_witness :
    (get_response "key" 0 (.success {}) "Paris").1.head? =
      some (statusChunk (pyStrip "Paris")) ∧
    (get_response "key" 0 (.success {}) "Paris").1.count
      (statusChunk (pyStrip "Paris")) = 1 :=
  status_chunk_unique_first "key" 0 (.success {}) "Paris" (by decide) (by decide)
    (by decide) (by decide)

/-- With the mock provider and a renderable clock value, the second chunk is
the mock text plus the clock-derived local time. -/
theorem mock_secondChunk (now : Int) (oc : ProviderOutcome) (loc lt : String)
    (hlt : utcfromtimestamp now = .ok lt) :
    secondChunk "" now oc loc = mockPre loc ++ lt ++ "\n" := by
  unfold secondChunk
  rw [get_weather_no_key]
  simp [format_mock_eq now loc lt hlt]

set_option maxRecDepth 16384 in
/-- C6: with no provider credential configured (`OPENWEATHER_API_KEY` empty),
`_get_weather` returns mock weather data flagged as mock, and the formatted
output of that mock result carries the visible mock-data disclaimer. The
clock value is stamped by `datetime.now()`, so it always renders
(`utcfromtimestamp now = .ok lt`). -/
theorem mock_when_no_key (now : Int) (oc : ProviderOutcome) (loc lt : String)
    (hlt : utcfromtimestamp now = .ok lt) :
    _get_weather "" now oc loc = .ok (_get_mock_weather now loc) ∧
    (_get_mock_weather now loc).mock_data = some true ∧
    ∃ s, _format_weather_data (_get_mock_weather now loc) = .ok s ∧
      strContains s
        "⚠️ **Note:** Using mock data. Set OPENWEATHER_API_KEY for real weather data.\n\n" := by
  refine ⟨get_weather_no_key now oc loc, rfl, _, format_mock_eq now loc lt hlt, ?_⟩
  refine strContains_of_eq ("## 🌤️ Weather for " ++ loc ++ "\n\n")
    ("**Current Conditions:** " ++ "Clear" ++ " (" ++ "clear sky" ++ ")\n\n" ++
      "### Temperature\n" ++
      "- **Current:** " ++ showFloat (mkRat 225 10) ++ "°C\n" ++
      "- **Feels Like:** " ++ showFloat (mkRat 230 10) ++ "°C\n" ++
      "- **Min/Max:** " ++ showFloat (mkRat 200 10) ++ "°C / " ++
        showFloat (mkRat 250 10) ++ "°C\n\n" ++
      "### Additional Info\n" ++
      "- **Humidity:** " ++ toString (65 : Int) ++ "%\n" ++
      "- **Wind Speed:** " ++ showFloat (mkRat 36 10) ++ " m/s\n" ++
      "- **Local Time:** " ++ lt ++ "\n") ?_
  apply String.ext
  simp [mockPre, List.append_assoc]

/-- Witness for C6 at clock value 0. -/
theorem mock_when_no_key_witness :
    _get_weather "" 0 (.success {}) "Paris" = .ok (_get_mock_weather 0 "Paris") ∧
    (_get_mock_weather 0 "Paris").mock_data = some true ∧
    ∃ s, _format_weather_data (_get_mock_weather 0 "Paris") = .ok s ∧
      strContains s
        "⚠️ **Note:** Using mock data. Set OPENWEATHER_API_KEY for real weather data.\n\n" :=
  mock_when_no_key 0 (.success {}) "Paris" "1970-01-01 00:00:00" rfl

/-- C9: invoking `get_response` twice with an identical query and identical
(mocked) provider behaviour produces identical chunk sequences except for the
timestamp-derived local-time text; all other chunk text is equal. The two
clock values are stamped by `datetime.now()`, so they always render. -/
theorem mock_idempotent_up_to_clock (oc₁ oc₂ : ProviderOutcome) (msg : String)
    (now₁ now₂ : Int) (lt₁ lt₂ : String)
    (hlt₁ : utcfromtimestamp now₁ = .ok lt₁)
    (hlt₂ : utcfromtimestamp now₂ = .ok lt₂)
    (h1 : pyStrip (pyLower msg) ≠ "bot info")
    (h2 : ¬(pyLower (pyStrip msg) = "help" ∨ pyLower (pyStrip msg) = "?" ∨
      pyLower (pyStrip msg) = "/help"))
    (h3 : pyStrip msg ≠ "")
    (h4 : ¬(pyLower (pyStrip msg) = "current location" ∨
      pyLower (pyStrip msg) = "my location" ∨ pyLower (pyStrip msg) = "here")) :
    ∃ pre,
      (get_response "" now₁ oc₁ msg).1 =
        [statusChunk (pyStrip msg), pre ++ lt₁ ++ "\n"] ∧
      (get_response "" now₂ oc₂ msg).1 =
        [statusChunk (pyStrip msg), pre ++ lt₂ ++ "\n"] := by
  refine ⟨mockPre (pyStrip msg), ?_, ?_⟩
  · rw [run_content_pair h1 h2 h3 h4,
      mock_secondChunk now₁ oc₁ (pyStrip msg) lt₁ hlt₁]
  · rw [run_content_pair h1 h2 h3 h4,
      mock_secondChunk now₂ oc₂ (pyStrip msg) lt₂ hlt₂]

/-- Witness for C9: two runs of `Paris` a day apart. -/
theorem mock_idempotent_up_to_clock_witness :
    ∃ pre,
      (get_response "" 0 (.success {}) "Paris").1 =
        [statusChunk (pyStrip "Paris"), pre ++ "1970-01-01 00:00:00" ++ "\n"] ∧
      (get_response "" 86400 (.otherException "down") "Paris").1 =
        [statusChunk (pyStrip "Paris"), pre ++ "1970-01-02 00:00:00" ++ "\n"] :=
  mock_idempotent_up_to_clock (.success {}) (.otherException "down") "Paris" 0
    86400 "1970-01-01 00:00:00" "1970-01-02 00:00:00" rfl rfl (by decide)
    (by decide) (by decide) (by decide)

/-- C10: branch matching is case-insensitive and ignores surrounding
whitespace — any message equal to `bot info`, a help keyword, or an
ambiguous-location keyword after lowercasing and stripping takes that branch
and never invokes the provider. -/
theorem keyword_match_insensitive (k : String) (now : Int) (oc : ProviderOutcome)
    (msg : String) :
    (pyStrip (pyLower msg) = "bot info" →
      get_response k now oc msg = ([bot_metadata_json], 0)) ∧
    ((pyStrip (pyLower msg) = "help" ∨ pyStrip (pyLower msg) = "?" ∨
      pyStrip (pyLower msg) = "/help") →
      get_response k now oc msg = ([help_text], 0)) ∧
    ((pyStrip (pyLower msg) = "current location" ∨
      pyStrip (pyLower msg) = "my location" ∨ pyStrip (pyLower msg) = "here") →
      get_response k now oc msg = ([clarification_text], 0)) := by
  refine ⟨fun h => run_info h, fun h => ?_, fun h => ?_⟩
  · rw [pyStrip_pyLower] at h
    have h1 : pyStrip (pyLower msg) ≠ "bot info" := by
      rw [pyStrip_pyLower]
      rcases h with h | h | h <;> rw [h] <;> decide
    exact run_help h1 h
  · rw [pyStrip_pyLower] at h
    have h1 : pyStrip (pyLower msg) ≠ "bot info" := by
      rw [pyStrip_pyLower]
      rcases h with h | h | h <;> rw [h] <;> decide
    have h2 : ¬(pyLower (pyStrip msg) = "help" ∨ pyLower (pyStrip msg) = "?" ∨
        pyLower (pyStrip msg) = "/help") := by
      rcases h with h | h | h <;> rw [h] <;> decide
    have h3 : pyStrip msg ≠ "" := by
      intro e
      rcases h with h | h | h <;> rw [e] at h <;> exact absurd h (by decide)
    exact run_clarify h1 h2 h3 h

/-- Witness for C10 at the claim's example messages. -/
theorem keyword_match_insensitive_witness :
    get_response "key" 0 (.success {}) " Bot Info " = ([bot_metadata_json], 0) ∧
    get_response "key" 0 (.success {}) "HELP" = ([help_text], 0) ∧
    get_response "key" 0 (.success {}) "  ?  " = ([help_text], 0) ∧
    get_response "key" 0 (.success {}) "MY LOCATION" = ([clarification_text], 0) :=
  ⟨(keyword_match_insensitive "key" 0 (.success {}) " Bot Info ").1 (by decide),
   (keyword_match_insensitive "key" 0 (.success {}) "HELP").2.1
     (Or.inl (by decide)),
   (keyword_match_insensitive "key" 0 (.success {}) "  ?  ").2.1
     (Or.inr (Or.inl (by decide))),
   (keyword_match_insensitive "key" 0 (.success {}) "MY LOCATION").2.2
     (Or.inr (Or.inl (by decide)))⟩

set_option maxRecDepth 8192 in
/-- Counterexample for C8: a named provider result whose out-of-range
timestamp makes the formatter raise — no formatted output exists, so the
claim fails as stated. -/
theorem format_contains_counterexample :
    ¬ ∃ s, _format_weather_data
      { name := some "Paris", dt := some 1000000000000000 } = .ok s := by
  rintro ⟨s, hs⟩
  have he : _format_weather_data
      { name := some "Paris", dt := some 1000000000000000 } =
      .error "ValueError: year is out of range" := rfl
  rw [he] at hs
  exact Except.noConfusion hs

set_option maxRecDepth 16384 in
/-- C8 (amended): for every successful provider result whose timestamp
`dt + timezone` renders within `datetime`\x27s supported years 1..9999, the
formatted weather output contains the location name and all four temperature
fields (current, feels-like, min, max); an out-of-range timestamp makes the
formatter raise instead. -/
theorem format_contains_location_and_temps (wd : WeatherData) (nm lt : String)
    (hnm : wd.name = some nm)
    (hlt : utcfromtimestamp (wd.dt.getD 0 + wd.timezone.getD 0) = .ok lt) :
    ∃ s, _format_weather_data wd = .ok s ∧
      strContains s nm ∧
      strContains s
        ("- **Current:** " ++ showFloat ((wd.main.getD {}).temp.getD 0) ++ "°C\n") ∧
      strContains s
        ("- **Feels Like:** " ++ showFloat ((wd.main.getD {}).feels_like.getD 0) ++ "°C\n") ∧
      strContains s
        ("- **Min/Max:** " ++ showFloat ((wd.main.getD {}).temp_min.getD 0) ++ "°C / " ++
          showFloat ((wd.main.getD {}).temp_max.getD 0) ++ "°C\n\n") := by
  refine ⟨_, format_eq_decomp wd lt hlt, ?_, ?_, ?_, ?_⟩
  · refine strContains_of_eq "## 🌤️ Weather for "
      (headerTail wd ++ fmtCond wd ++ fmtCur wd ++ fmtFeels wd ++ fmtMinMax wd ++
        fmtTailTime wd lt) ?_
    apply String.ext
    simp [hnm, List.append_assoc]
  · refine strContains_of_eq
      ("## 🌤️ Weather for " ++ wd.name.getD "Unknown" ++ headerTail wd ++
        fmtCond wd)
      (fmtFeels wd ++ fmtMinMax wd ++ fmtTailTime wd lt) ?_
    apply String.ext
    simp [fmtCur, List.append_assoc]
  · refine strContains_of_eq
      ("## 🌤️ Weather for " ++ wd.name.getD "Unknown" ++ headerTail wd ++
        fmtCond wd ++ fmtCur wd)
      (fmtMinMax wd ++ fmtTailTime wd lt) ?_
    apply String.ext
    simp [fmtFeels, List.append_assoc]
  · refine strContains_of_eq
      ("## 🌤️ Weather for " ++ wd.name.getD "Unknown" ++ headerTail wd ++
        fmtCond wd ++ fmtCur wd ++ fmtFeels wd)
      (fmtTailTime wd lt) ?_
    apply String.ext
    simp [fmtMinMax, List.append_assoc]

/-- Witness for C8 at a concrete successful result for `Paris`, whose
defaulted timestamp 0 renders. -/
theorem format_contains_location_and_temps_witness :
    ∃ s, _format_weather_data { name := some "Paris" } = .ok s ∧
      strContains s "Paris" ∧
      strContains s
        ("- **Current:** " ++
          showFloat ((({ name := some "Paris" } : WeatherData).main.getD {}).temp.getD 0) ++
          "°C\n") ∧
      strContains s
        ("- **Feels Like:** " ++
          showFloat ((({ name := some "Paris" } : WeatherData).main.getD {}).feels_like.getD 0) ++
          "°C\n") ∧
      strContains s
        ("- **Min/Max:** " ++
          showFloat ((({ name := some "Paris" } : WeatherData).main.getD {}).temp_min.getD 0) ++
          "°C / " ++
          showFloat ((({ name := some "Paris" } : WeatherData).main.getD {}).temp_max.getD 0) ++
          "°C\n\n") :=
  format_contains_location_and_temps { name := some "Paris" } "Paris"
    "1970-01-01 00:00:00" rfl rfl
